import Mathlib

/-!
# Verification of the VEP forward-simulation engine

Shallow embedding, over `ℚ`, of the numerical core of the repository:

* `Vep` — the `src/vep` variant (`epileptor.py`, `simulator.py`, `config.py`);
* `VepCore` — the `src/vep_core` variant (`models/epileptor.py`,
  `simulation/forward.py`, `config.py`).

Conventions of the embedding:

* `float64` values are modelled as rationals; the claims under study are exact
  algebraic identities, orderings and control-flow facts, none of which depend
  on rounding.
* numpy arrays are modelled as total functions from indices; a shape `[n]` or
  `[bufferSize][N]` restricts the indices the theorems quantify over.
* A call `np.random.normal(0, s, shape)` is modelled as `s * gauss idx` where
  `gauss` is an arbitrary standard-normal draw passed in as a function
  argument; this makes the scale factor the code applies to the raw draw
  explicit.
* `np.sqrt(dt)` is irrational in general, so the embedded steppers receive the
  value `sqrtDt` as a separate argument standing for the float the source
  computes; no claim under study depends on its numeric relation to `dt`.
* Methods that mutate a caller-owned buffer in place (only
  `VepCore.integrate_step` does) return a pair: first the caller's buffer as
  it stands after the call, then the Python return value.  Pure functions
  (both derivative kernels allocate a fresh output and write only to it) are
  embedded as plain functions.
-/

namespace Vep

/-- Constants of `src/vep/config.py` (`PhysicsConfig` defaults). -/
def velocity : ℚ := 3.0

def coupling_strength_default : ℚ := 0.1

def Iext1_default : ℚ := 3.1

def Iext2_default : ℚ := 0.45

def tau0_default : ℚ := 2857.0

def r_default : ℚ := 0.00035

def noise_default : ℚ := 0.0001

/-- `SimulationConfig.dt` default of `src/vep/config.py`. -/
def dt_default : ℚ := 0.05

/-- Embeds `compute_coupling` of `src/vep/simulator.py` (lines 17–37):
for each region `i < n` it accumulates, over `j < n` with `weights[i,j] > 0`,
`w * (history[(step - delay) % buffer_size, j] - history[step % buffer_size, i])`
and scales by `coupling_strength`.  `step` is the non-negative loop counter;
the inner subtraction is integer arithmetic, and `%` is Python's floor-modulo,
which for a positive modulus agrees with `Int.emod`. -/
def compute_coupling (history weights : ℕ → ℕ → ℚ) (delays : ℕ → ℕ → ℤ)
    (step : ℕ) (buffer_size : ℕ) (coupling_strength : ℚ) (n : ℕ) : ℕ → ℚ :=
  fun i =>
    let curr_idx := step % buffer_size
    let c := ∑ j in Finset.range n,
      (if 0 < weights i j then
        weights i j *
          (history (((step : ℤ) - delays i j) % (buffer_size : ℤ)).toNat j
            - history curr_idx i)
      else 0)
    coupling_strength * c

/-- Embeds `epileptor_dfun` of `src/vep/epileptor.py` (lines 12–50).
The source allocates `dx = np.zeros((n, 6))` and assigns its six columns;
every write targets the fresh `dx`, so the function is pure and is embedded
as one.  Column order: `[x1, y1, z, x2, y2, g]`. -/
def epileptor_dfun (state : ℕ → ℕ → ℚ) (coupling x0 : ℕ → ℚ)
    (Iext1 Iext2 tau0 r : ℚ) : ℕ → ℕ → ℚ :=
  fun i c =>
    let x1 := state i 0
    let y1 := state i 1
    let z := state i 2
    let x2 := state i 3
    let y2 := state i 4
    let g := state i 5
    if c = 0 then y1 - x1 ^ 3 + 3 * x1 ^ 2 - z + Iext1 + coupling i
    else if c = 1 then 1.0 - 5 * x1 ^ 2 - y1
    else if c = 2 then r * (4.0 * (x1 - x0 i) - z)
    else if c = 3 then -y2 + x2 - x2 ^ 3 + Iext2 + 0.002 * g - 0.3 * (z - 3.5)
    else if c = 4 then (-y2 + x2 ^ 4) / tau0
    else if c = 5 then -0.01 * (g - 0.1 * x1)
    else 0

end Vep

namespace VepCore

/-- Constants of `src/vep_core/config.py`. -/
def DT : ℚ := 0.05

def CONDUCTION_VELOCITY : ℚ := 3.0

def GLOBAL_COUPLING : ℚ := 0.05

def I_EXT_1 : ℚ := 3.1

def TAU_0 : ℚ := 2857.0

def I_EXT_2 : ℚ := 0.45

def R_TIMESCALE : ℚ := 0.00035

/-- Embeds `compute_delay_coupling` of `src/vep_core/simulation/forward.py`
(lines 13–52); same accumulation as `Vep.compute_coupling`, with the source's
two-stage index computation `hist_ptr = current_step - delay_steps` followed
by `hist_ptr = hist_ptr % buffer_size`. -/
def compute_delay_coupling (history weights : ℕ → ℕ → ℚ) (delays : ℕ → ℕ → ℤ)
    (current_step : ℕ) (buffer_size : ℕ) (global_coupling : ℚ) (n_regions : ℕ) :
    ℕ → ℚ :=
  fun i =>
    let curr_ptr := current_step % buffer_size
    let c_i := ∑ j in Finset.range n_regions,
      (if 0 < weights i j then
        weights i j *
          (history (((current_step : ℤ) - delays i j) % (buffer_size : ℤ)).toNat j
            - history curr_ptr i)
      else 0)
    global_coupling * c_i

/-- Embeds `dfun` of `src/vep_core/models/epileptor.py` (lines 12–53).
The source computes the six derivative rows and returns
`np.stack((dx1, dy1, dz, dx2, dy2, dg), axis=1)`, a fresh array; no input is
written.  Note the argument order of the source: `r_timescale` before `tau0`. -/
def dfun (state : ℕ → ℕ → ℚ) (coupling param_x0 : ℕ → ℚ)
    (I_ext1 I_ext2 r_timescale tau0 : ℚ) : ℕ → ℕ → ℚ :=
  fun i c =>
    let x1 := state i 0
    let y1 := state i 1
    let z := state i 2
    let x2 := state i 3
    let y2 := state i 4
    let g := state i 5
    if c = 0 then y1 - x1 ^ 3 + 3 * x1 ^ 2 - z + I_ext1 + coupling i
    else if c = 1 then 1 - 5 * x1 ^ 2 - y1
    else if c = 2 then r_timescale * (4 * (x1 - param_x0 i) - z)
    else if c = 3 then -y2 + x2 - x2 ^ 3 + I_ext2 + 0.002 * g - 0.3 * (z - 3.5)
    else if c = 4 then (-y2 + x2 ^ 4) / tau0
    else if c = 5 then -0.01 * (g - 0.1 * x1)
    else 0

end VepCore

/-- The coupling value the spec's formula prescribes (§4.2 of the spec):
`a * Σ_j weight[i][j] * (history[(step - delay[i][j]) mod bufferSize][j]
- history[step mod bufferSize][i])`, summed over all `j`, no zero-weight
skipping. -/
def couplingSpecFormula (history weights : ℕ → ℕ → ℚ) (delays : ℕ → ℕ → ℤ)
    (step : ℕ) (bufferSize : ℕ) (a : ℚ) (n : ℕ) : ℕ → ℚ :=
  fun i =>
    a * ∑ j in Finset.range n,
      weights i j *
        (history (((step : ℤ) - delays i j) % (bufferSize : ℤ)).toNat j
          - history (step % bufferSize) i)

/-- C1: for every region `i < n`, both coupling kernels return exactly
`a * Σ_j weight[i][j] * (history[(step - delay[i][j]) mod bufferSize][j] -
history[step mod bufferSize][i])`: skipping the zero-weight pairs does not
change the sum, and the floor-modulo history index is a valid non-negative
index (`0 ≤ idx < bufferSize`) even when `step - delay[i][j] < 0`. -/
theorem coupling_matches_spec_formula
    (history weights : ℕ → ℕ → ℚ) (delays : ℕ → ℕ → ℤ)
    (step : ℕ) (bufferSize : ℕ) (a : ℚ) (n : ℕ)
    (hw : ∀ i j, 0 ≤ weights i j)
    (hd : ∀ i j, 0 ≤ delays i j ∧ delays i j < bufferSize) :
    ∀ i < n,
      (Vep.compute_coupling history weights delays step bufferSize a n i
        = couplingSpecFormula history weights delays step bufferSize a n i)
      ∧ (VepCore.compute_delay_coupling history weights delays step bufferSize a n i
        = couplingSpecFormula history weights delays step bufferSize a n i)
      ∧ ∀ j < n, 0 ≤ ((step : ℤ) - delays i j) % (bufferSize : ℤ)
          ∧ ((step : ℤ) - delays i j) % (bufferSize : ℤ) < (bufferSize : ℤ) := by
  intro i hi
  have hbuf : (0 : ℤ) < (bufferSize : ℤ) := by
    have h0 := (hd i i).1
    have h1 := (hd i i).2
    omega
  have hsum : ∀ j ∈ Finset.range n,
      (if 0 < weights i j then
        weights i j *
          (history (((step : ℤ) - delays i j) % (bufferSize : ℤ)).toNat j
            - history (step % bufferSize) i)
      else 0)
        = weights i j *
            (history (((step : ℤ) - delays i j) % (bufferSize : ℤ)).toNat j
              - history (step % bufferSize) i) := by
    intro j _
    by_cases h : 0 < weights i j
    · simp [h]
    · have hz : weights i j = 0 := le_antisymm (not_lt.1 h) (hw i j)
      simp [h, hz]
  refine ⟨?_, ?_, ?_⟩
  · unfold Vep.compute_coupling couplingSpecFormula
    exact congrArg (a * ·) (Finset.sum_congr rfl hsum)
  · unfold VepCore.compute_delay_coupling couplingSpecFormula
    exact congrArg (a * ·) (Finset.sum_congr rfl hsum)
  · intro j _
    exact ⟨Int.emod_nonneg _ (by omega), Int.emod_lt_of_pos _ hbuf⟩

/-- Witness for C1 at `n = 2`, `bufferSize = 3`, `step = 5`, unit weights and
delays, `a = 2`, `history[t][j] = t + j`. -/
theorem coupling_matches_spec_formula_witness :
    (Vep.compute_coupling (fun t j => (t : ℚ) + j) (fun _ _ => 1) (fun _ _ => 1)
        5 3 2 2 0
      = couplingSpecFormula (fun t j => (t : ℚ) + j) (fun _ _ => 1) (fun _ _ => 1)
        5 3 2 2 0)
    ∧ (VepCore.compute_delay_coupling (fun t j => (t : ℚ) + j) (fun _ _ => 1)
        (fun _ _ => 1) 5 3 2 2 0
      = couplingSpecFormula (fun t j => (t : ℚ) + j) (fun _ _ => 1) (fun _ _ => 1)
        5 3 2 2 0)
    ∧ ∀ j < 2, 0 ≤ ((5 : ℤ) - 1) % (3 : ℤ) ∧ ((5 : ℤ) - 1) % (3 : ℤ) < (3 : ℤ) :=
  coupling_matches_spec_formula (fun t j => (t : ℚ) + j) (fun _ _ => 1)
    (fun _ _ => 1) 5 3 2 2
    (fun _ _ => by norm_num) (fun _ _ => by norm_num) 0 (by norm_num)

/-- C2: both derivative kernels return, per region, exactly the six Epileptor
equations of the spec; they allocate a fresh output and write only to it, so
the embedding is a pure function of its arguments. -/
theorem dfun_components (state : ℕ → ℕ → ℚ) (coupling x0 : ℕ → ℚ)
    (Iext1 Iext2 tau0 r : ℚ) (i : ℕ) :
    (Vep.epileptor_dfun state coupling x0 Iext1 Iext2 tau0 r i 0
      = state i 1 - state i 0 ^ 3 + 3 * state i 0 ^ 2 - state i 2 + Iext1 + coupling i)
    ∧ (Vep.epileptor_dfun state coupling x0 Iext1 Iext2 tau0 r i 1
      = 1 - 5 * state i 0 ^ 2 - state i 1)
    ∧ (Vep.epileptor_dfun state coupling x0 Iext1 Iext2 tau0 r i 2
      = r * (4 * (state i 0 - x0 i) - state i 2))
    ∧ (Vep.epileptor_dfun state coupling x0 Iext1 Iext2 tau0 r i 3
      = -state i 4 + state i 3 - state i 3 ^ 3 + Iext2 + 0.002 * state i 5
          - 0.3 * (state i 2 - 3.5))
    ∧ (Vep.epileptor_dfun state coupling x0 Iext1 Iext2 tau0 r i 4
      = (-state i 4 + state i 3 ^ 4) / tau0)
    ∧ (Vep.epileptor_dfun state coupling x0 Iext1 Iext2 tau0 r i 5
      = -0.01 * (state i 5 - 0.1 * state i 0))
    ∧ (VepCore.dfun state coupling x0 Iext1 Iext2 r tau0 i 0
      = state i 1 - state i 0 ^ 3 + 3 * state i 0 ^ 2 - state i 2 + Iext1 + coupling i)
    ∧ (VepCore.dfun state coupling x0 Iext1 Iext2 r tau0 i 1
      = 1 - 5 * state i 0 ^ 2 - state i 1)
    ∧ (VepCore.dfun state coupling x0 Iext1 Iext2 r tau0 i 2
      = r * (4 * (state i 0 - x0 i) - state i 2))
    ∧ (VepCore.dfun state coupling x0 Iext1 Iext2 r tau0 i 3
      = -state i 4 + state i 3 - state i 3 ^ 3 + Iext2 + 0.002 * state i 5
          - 0.3 * (state i 2 - 3.5))
    ∧ (VepCore.dfun state coupling x0 Iext1 Iext2 r tau0 i 4
      = (-state i 4 + state i 3 ^ 4) / tau0)
    ∧ (VepCore.dfun state coupling x0 Iext1 Iext2 r tau0 i 5
      = -0.01 * (state i 5 - 0.1 * state i 0)) := by
  unfold Vep.epileptor_dfun VepCore.dfun
  norm_num

namespace Vep

/-- The onset threshold of `src/vep/simulator.py` line 89:
`onset_threshold = -1.0  # x1 above this = spiking`. -/
def onset_threshold : ℚ := -1.0

/-- Embeds the onset-detection statements of `Simulator.run`
(`src/vep/simulator.py` lines 107–108):
`spiking = (state[:, 0] > onset_threshold) & (onset_times < 0)`,
`onset_times[spiking] = t * dt`.  `x1` is the post-step `state[:, 0]`. -/
def onset_update (x1 onset_times : ℕ → ℚ) (t : ℕ) (dt : ℚ) : ℕ → ℚ :=
  fun i =>
    if x1 i > onset_threshold ∧ onset_times i < 0 then (t : ℚ) * dt
    else onset_times i

/-- The onset array after `n` iterations of the `Simulator.run` loop, given
the trajectory `x1traj t = state[:, 0]` after the step of iteration `t`;
initialised by `onset_times = np.full(n_regions, -1.0)` (line 88). -/
def run_onsets (x1traj : ℕ → ℕ → ℚ) (dt : ℚ) : ℕ → ℕ → ℚ
  | 0 => fun _ => -1.0
  | t + 1 => onset_update (x1traj t) (run_onsets x1traj dt t) t dt

end Vep

namespace VepCore

/-- Embeds the onset-detection statements of `ForwardSimulator.run`
(`src/vep_core/simulation/forward.py` lines 129–132):
`spiking_indices = np.where((current_state[:, 0] > -1.2) & (onset_times == -1.0))[0]`,
then `onset_times[spiking_indices] = t * config.DT`. -/
def onset_update (x1 onset_times : ℕ → ℚ) (t : ℕ) : ℕ → ℚ :=
  fun i =>
    if x1 i > -1.2 ∧ onset_times i = -1.0 then (t : ℚ) * DT
    else onset_times i

/-- The onset array after `n` iterations of the `ForwardSimulator.run` loop;
initialised by `onset_times = np.full(self.n_regions, -1.0)` (line 109). -/
def run_onsets (x1traj : ℕ → ℕ → ℚ) : ℕ → ℕ → ℚ
  | 0 => fun _ => -1.0
  | t + 1 => onset_update (x1traj t) (run_onsets x1traj t) t

end VepCore

/-- C3 counterexample: the claim says both loops use the threshold `-1.2`,
but `src/vep/simulator.py` line 89 hardcodes `onset_threshold = -1.0`.
At `x1 = -1.1` (strictly above `-1.2`) with onset still unset (`-1`), the
`vep` loop at step `t = 7`, `dt = 1/20` leaves the onset at `-1` instead of
recording `7 * (1/20)` as the claim requires. -/
theorem onset_threshold_counterexample :
    (-1.2 : ℚ) < -1.1
    ∧ Vep.onset_update (fun _ => -1.1) (fun _ => -1.0) 7 (1 / 20) 0 = -1.0
    ∧ ((-1.0 : ℚ) ≠ (7 : ℚ) * (1 / 20)) := by
  refine ⟨by norm_num, ?_, by norm_num⟩
  unfold Vep.onset_update Vep.onset_threshold
  norm_num

/-- C3 amended: each variant records `step * dt` for a region whose post-step
`x1` strictly exceeds that variant's own fixed threshold while its onset is
unset — `-1.2` in `vep_core` (with `dt = config.DT`), `-1.0` in `vep` — and
leaves the entry unchanged otherwise. -/
theorem onset_update_matches_thresholds (x1 onset_times : ℕ → ℚ) (t : ℕ)
    (dt : ℚ) (i : ℕ) :
    (x1 i > -1.2 ∧ onset_times i = -1.0 →
      VepCore.onset_update x1 onset_times t i = (t : ℚ) * VepCore.DT)
    ∧ (¬(x1 i > -1.2 ∧ onset_times i = -1.0) →
      VepCore.onset_update x1 onset_times t i = onset_times i)
    ∧ (x1 i > -1.0 ∧ onset_times i < 0 →
      Vep.onset_update x1 onset_times t dt i = (t : ℚ) * dt)
    ∧ (¬(x1 i > -1.0 ∧ onset_times i < 0) →
      Vep.onset_update x1 onset_times t dt i = onset_times i) := by
  unfold Vep.onset_update VepCore.onset_update Vep.onset_threshold
  refine ⟨fun h => ?_, fun h => ?_, fun h => ?_, fun h => ?_⟩ <;> simp [h]

/-- Witness for C3's amended theorem: a region at `x1 = -1` (above `-1.2`,
not above `-1.0`) with onset unset: `vep_core` records `4 * DT`, `vep`
leaves `-1`. -/
theorem onset_update_matches_thresholds_witness :
    VepCore.onset_update (fun _ => -1.0) (fun _ => -1.0) 4 0 = (4 : ℚ) * VepCore.DT
    ∧ Vep.onset_update (fun _ => -1.0) (fun _ => -1.0) 4 (1 / 20) 0 = -1.0 :=
  ⟨(onset_update_matches_thresholds (fun _ => -1.0) (fun _ => -1.0) 4 (1 / 20) 0).1
      ⟨by norm_num, rfl⟩,
    (onset_update_matches_thresholds (fun _ => -1.0) (fun _ => -1.0) 4 (1 / 20) 0).2.2.2
      (by norm_num)⟩

lemma vep_onsets_unset_or_nonneg (x1traj : ℕ → ℕ → ℚ) (dt : ℚ) (hdt : 0 ≤ dt)
    (i : ℕ) : ∀ n, Vep.run_onsets x1traj dt n i = -1.0
      ∨ 0 ≤ Vep.run_onsets x1traj dt n i := by
  intro n
  induction n with
  | zero => exact Or.inl rfl
  | succ t ih =>
    simp only [Vep.run_onsets, Vep.onset_update]
    by_cases h : x1traj t i > Vep.onset_threshold ∧ Vep.run_onsets x1traj dt t i < 0
    · rw [if_pos h]
      exact Or.inr (mul_nonneg (Nat.cast_nonneg t) hdt)
    · rw [if_neg h]
      exact ih

lemma vep_onsets_step_preserve (x1traj : ℕ → ℕ → ℚ) (dt : ℚ) (hdt : 0 ≤ dt)
    (i t : ℕ) (h : Vep.run_onsets x1traj dt t i ≠ -1.0) :
    Vep.run_onsets x1traj dt (t + 1) i = Vep.run_onsets x1traj dt t i := by
  have h0 : 0 ≤ Vep.run_onsets x1traj dt t i :=
    (vep_onsets_unset_or_nonneg x1traj dt hdt i t).resolve_left h
  simp only [Vep.run_onsets, Vep.onset_update]
  rw [if_neg]
  rintro ⟨_, hlt⟩
  exact absurd h0 (not_le.2 hlt)

lemma core_onsets_step_preserve (x1traj : ℕ → ℕ → ℚ) (i t : ℕ)
    (h : VepCore.run_onsets x1traj t i ≠ -1.0) :
    VepCore.run_onsets x1traj (t + 1) i = VepCore.run_onsets x1traj t i := by
  simp only [VepCore.run_onsets, VepCore.onset_update]
  rw [if_neg]
  rintro ⟨_, heq⟩
  exact h heq

lemma vep_onsets_sentinel (x1traj : ℕ → ℕ → ℚ) (dt : ℚ) (i : ℕ) :
    ∀ n, (∀ t < n, x1traj t i ≤ Vep.onset_threshold) →
      Vep.run_onsets x1traj dt n i = -1.0 := by
  intro n
  induction n with
  | zero => exact fun _ => rfl
  | succ t ih =>
    intro h
    simp only [Vep.run_onsets, Vep.onset_update]
    rw [if_neg, ih (fun s hs => h s (Nat.lt_succ_of_lt hs))]
    rintro ⟨hgt, _⟩
    exact absurd hgt (not_lt.2 (h t (Nat.lt_succ_self t)))

lemma core_onsets_sentinel (x1traj : ℕ → ℕ → ℚ) (i : ℕ) :
    ∀ n, (∀ t < n, x1traj t i ≤ -1.2) →
      VepCore.run_onsets x1traj n i = -1.0 := by
  intro n
  induction n with
  | zero => exact fun _ => rfl
  | succ t ih =>
    intro h
    simp only [VepCore.run_onsets, VepCore.onset_update]
    rw [if_neg, ih (fun s hs => h s (Nat.lt_succ_of_lt hs))]
    rintro ⟨hgt, _⟩
    exact absurd hgt (not_lt.2 (h t (Nat.lt_succ_self t)))

/-- C4: in both loops, once a region's onset time has been set (it is no
longer the sentinel `-1`), no later iteration of the same run changes it, and
a region whose `x1` never exceeds that variant's threshold finishes the run
with the sentinel `-1`. -/
theorem onset_monotone_and_sentinel (x1traj : ℕ → ℕ → ℚ) (dt : ℚ)
    (hdt : 0 ≤ dt) (i n m : ℕ) (hnm : n ≤ m) :
    (Vep.run_onsets x1traj dt n i ≠ -1.0 →
      Vep.run_onsets x1traj dt m i = Vep.run_onsets x1traj dt n i)
    ∧ (VepCore.run_onsets x1traj n i ≠ -1.0 →
      VepCore.run_onsets x1traj m i = VepCore.run_onsets x1traj n i)
    ∧ ((∀ t < n, x1traj t i ≤ Vep.onset_threshold) →
      Vep.run_onsets x1traj dt n i = -1.0)
    ∧ ((∀ t < n, x1traj t i ≤ -1.2) →
      VepCore.run_onsets x1traj n i = -1.0) := by
  refine ⟨?_, ?_, vep_onsets_sentinel x1traj dt i n, core_onsets_sentinel x1traj i n⟩
  · intro h
    induction m, hnm using Nat.le_induction with
    | base => rfl
    | succ m hm ih =>
      have hne : Vep.run_onsets x1traj dt m i ≠ -1.0 := ih ▸ h
      rw [vep_onsets_step_preserve x1traj dt hdt i m hne, ih]
  · intro h
    induction m, hnm using Nat.le_induction with
    | base => rfl
    | succ m hm ih =>
      have hne : VepCore.run_onsets x1traj m i ≠ -1.0 := ih ▸ h
      rw [core_onsets_step_preserve x1traj i m hne, ih]

/-- Witness for C4: a trajectory pinned at `x1 = 0` (above both thresholds):
the onset recorded at iteration `0` (value `0 * dt = 0 ≠ -1`) survives to
iteration `3` in both variants; and a trajectory pinned at `-2` (below both
thresholds) ends two iterations with the sentinel. -/
theorem onset_monotone_and_sentinel_witness :
    (Vep.run_onsets (fun _ _ => 0) 1 3 0 = Vep.run_onsets (fun _ _ => 0) 1 1 0)
    ∧ (VepCore.run_onsets (fun _ _ => 0) 3 0 = VepCore.run_onsets (fun _ _ => 0) 1 0)
    ∧ (Vep.run_onsets (fun _ _ => -2) 1 2 0 = -1.0)
    ∧ (VepCore.run_onsets (fun _ _ => -2) 2 0 = -1.0) :=
  ⟨(onset_monotone_and_sentinel (fun _ _ => 0) 1 (by norm_num) 0 1 3
      (by norm_num)).1
      (by norm_num [Vep.run_onsets, Vep.onset_update, Vep.onset_threshold]),
    (onset_monotone_and_sentinel (fun _ _ => 0) 1 (by norm_num) 0 1 3
      (by norm_num)).2.1
      (by norm_num [VepCore.run_onsets, VepCore.onset_update, VepCore.DT]),
    (onset_monotone_and_sentinel (fun _ _ => -2) 1 (by norm_num) 0 2 2
      (le_refl 2)).2.2.1 (fun t _ => by norm_num [Vep.onset_threshold]),
    (onset_monotone_and_sentinel (fun _ _ => -2) 1 (by norm_num) 0 2 2
      (le_refl 2)).2.2.2 (fun t _ => by norm_num)⟩

namespace Vep

/-- Embeds `Epileptor.initial_state` of `src/vep/epileptor.py` (lines 69–84):
rest values `[-1.6, -10.0, 3.0, -1.0, 0.0, 0.0]`, then
`state[:, 0] += np.random.normal(0, 0.05, n)`; the draw is modelled as
`0.05 * gauss i`. -/
def initial_state (gauss : ℕ → ℚ) : ℕ → ℕ → ℚ :=
  fun i c =>
    if c = 0 then -1.6 + 0.05 * gauss i
    else if c = 1 then -10.0
    else if c = 2 then 3.0
    else if c = 3 then -1.0
    else if c = 4 then 0.0
    else if c = 5 then 0.0
    else 0

/-- Embeds `Epileptor.step` of `src/vep/epileptor.py` (lines 86–103):
`new_state = state + deriv * dt` (a fresh array, the caller's `state` is not
written), then `noise_amp = self.config.noise * np.sqrt(dt)` and additive
draws `noise_amp * gauss` on columns 0 (`x1`) and 3 (`x2`) only.
`noiseCfg` is `self.config.noise`; `sqrtDt` stands for `np.sqrt(dt)`. -/
def step (state : ℕ → ℕ → ℚ) (coupling x0 : ℕ → ℚ)
    (Iext1 Iext2 tau0 r noiseCfg dt sqrtDt : ℚ) (gauss1 gauss2 : ℕ → ℚ) :
    ℕ → ℕ → ℚ :=
  let deriv := epileptor_dfun state coupling x0 Iext1 Iext2 tau0 r
  let new_state := fun i c => state i c + deriv i c * dt
  let noise_amp := noiseCfg * sqrtDt
  fun i c =>
    if c = 0 then new_state i c + noise_amp * gauss1 i
    else if c = 3 then new_state i c + noise_amp * gauss2 i
    else new_state i c

end Vep

namespace VepCore

/-- Embeds `Epileptor.initial_state` of `src/vep_core/models/epileptor.py`
(lines 63–71): `x1 = -1.6 + np.random.normal(0, 0.1, n)` (modelled as
`-1.6 + 0.1 * gauss i`), rest `[-10.0, 3.0, -1.5, 0.0, 0.0]`. -/
def initial_state (gauss : ℕ → ℚ) : ℕ → ℕ → ℚ :=
  fun i c =>
    if c = 0 then -1.6 + 0.1 * gauss i
    else if c = 1 then -10.0
    else if c = 2 then 3.0
    else if c = 3 then -1.5
    else if c = 4 then 0.0
    else if c = 5 then 0.0
    else 0

/-- Embeds `Epileptor.integrate_step` of `src/vep_core/models/epileptor.py`
(lines 73–96).  The noise scale is the local literal `sig = 0.0002` (line 84),
not a configuration value; `noise = np.random.normal(0, sig, (n, 2))` is
modelled as `sig * gauss i k`.  The updates `state += derivs * dt`,
`state[:, 0] += noise[:, 0] * np.sqrt(dt)` and
`state[:, 3] += noise[:, 1] * np.sqrt(dt)` all write the caller's buffer in
place, and `return state` returns that same buffer; accordingly the embedding
returns the pair (caller's buffer after the call, returned array). -/
def integrate_step (state : ℕ → ℕ → ℚ) (coupling param_x0 : ℕ → ℚ)
    (dt sqrtDt : ℚ) (gauss : ℕ → ℕ → ℚ) :
    (ℕ → ℕ → ℚ) × (ℕ → ℕ → ℚ) :=
  let derivs := dfun state coupling param_x0 I_EXT_1 I_EXT_2 R_TIMESCALE TAU_0
  let sig : ℚ := 0.0002
  let noise := fun i k => sig * gauss i k
  let state1 := fun i c => state i c + derivs i c * dt
  let state2 := fun i c =>
    if c = 0 then state1 i c + noise i 0 * sqrtDt
    else if c = 3 then state1 i c + noise i 1 * sqrtDt
    else state1 i c
  (state2, state2)

end VepCore

/-- C7 counterexample: the per-region perturbation is an unbounded Gaussian
draw (`np.random.normal`), so no draw bound exists: with the `vep_core` draw
`gauss 0 = 20` (perturbation `0.1 * 20 = 2`), region 0 starts at
`x1 = -1.6 + 2 = 0.4`, outside `[-2, -1]`. -/
theorem initial_state_range_counterexample :
    VepCore.initial_state (fun _ => 20) 0 0 = 0.4
    ∧ ¬((-2 : ℚ) ≤ VepCore.initial_state (fun _ => 20) 0 0
        ∧ VepCore.initial_state (fun _ => 20) 0 0 ≤ -1) := by
  norm_num [VepCore.initial_state]

/-- C7 amended: `x1 = -1.6` plus a perturbation of `0.05 * gauss` (`vep`) or
`0.1 * gauss` (`vep_core`); whenever that perturbation lies in `[-0.4, 0.6]`
the region's `x1` lies in `[-2, -1]`, and every other channel sits at its
fixed rest value (`y1 = -10`, `z = 3`, `x2 = -1` in `vep` and `-1.5` in
`vep_core`, `y2 = 0`, `g = 0`). -/
theorem initial_state_rest_values (gauss : ℕ → ℚ) (i : ℕ) :
    (-0.4 ≤ 0.05 * gauss i → 0.05 * gauss i ≤ 0.6 →
      -2 ≤ Vep.initial_state gauss i 0 ∧ Vep.initial_state gauss i 0 ≤ -1)
    ∧ (-0.4 ≤ 0.1 * gauss i → 0.1 * gauss i ≤ 0.6 →
      -2 ≤ VepCore.initial_state gauss i 0 ∧ VepCore.initial_state gauss i 0 ≤ -1)
    ∧ Vep.initial_state gauss i 1 = -10
    ∧ Vep.initial_state gauss i 2 = 3
    ∧ Vep.initial_state gauss i 3 = -1
    ∧ Vep.initial_state gauss i 4 = 0
    ∧ Vep.initial_state gauss i 5 = 0
    ∧ VepCore.initial_state gauss i 1 = -10
    ∧ VepCore.initial_state gauss i 2 = 3
    ∧ VepCore.initial_state gauss i 3 = -1.5
    ∧ VepCore.initial_state gauss i 4 = 0
    ∧ VepCore.initial_state gauss i 5 = 0 := by
  refine ⟨fun h1 h2 => ?_, fun h1 h2 => ?_, ?_, ?_, ?_, ?_, ?_, ?_, ?_, ?_, ?_, ?_⟩ <;>
    norm_num [Vep.initial_state, VepCore.initial_state] <;>
    constructor <;> linarith

/-- Witness for C7's amended theorem at the zero draw: `x1 = -1.6 ∈ [-2, -1]`
in both variants. -/
theorem initial_state_rest_values_witness :
    (-2 ≤ Vep.initial_state (fun _ => 0) 0 0
      ∧ Vep.initial_state (fun _ => 0) 0 0 ≤ -1)
    ∧ (-2 ≤ VepCore.initial_state (fun _ => 0) 0 0
      ∧ VepCore.initial_state (fun _ => 0) 0 0 ≤ -1) :=
  ⟨(initial_state_rest_values (fun _ => 0) 0).1 (by norm_num) (by norm_num),
    (initial_state_rest_values (fun _ => 0) 0).2.1 (by norm_num) (by norm_num)⟩

/-- C8 counterexample: `vep_core`'s `integrate_step` hardcodes its noise scale
(`sig = 0.0002`, line 84 of `src/vep_core/models/epileptor.py`); no
configuration value enters it, so its stochasticity cannot be configured away:
from the rest state with zero coupling, `dt = 1`, `sqrt(dt) = 1`, the draws
`0` and `1` give different next `x1` values. -/
theorem integrate_step_not_deterministic :
    (VepCore.integrate_step (VepCore.initial_state fun _ => 0) (fun _ => 0)
        (fun _ => -2.2) 1 1 (fun _ _ => 0)).2 0 0
      ≠ (VepCore.integrate_step (VepCore.initial_state fun _ => 0) (fun _ => 0)
        (fun _ => -2.2) 1 1 (fun _ _ => 1)).2 0 0 := by
  norm_num [VepCore.integrate_step, VepCore.dfun, VepCore.initial_state]

/-- C8 amended: in `vep`, the additive noise on channels `x1` and `x2` has
scale `config.noise * sqrt(dt)` applied to the raw draw, so setting the
configured `noise` to `0` makes `Epileptor.step` a deterministic function of
the state (identical for any two draws); in `vep_core`, `integrate_step`
scales its draws by the hardcoded `0.0002 * sqrt(dt)`, which no configuration
value controls. -/
theorem step_noise_scaling (state : ℕ → ℕ → ℚ) (coupling x0 : ℕ → ℚ)
    (Iext1 Iext2 tau0 r noiseCfg dt sqrtDt : ℚ) (gA1 gA2 gB1 gB2 : ℕ → ℚ)
    (gauss : ℕ → ℕ → ℚ) (i : ℕ) :
    (Vep.step state coupling x0 Iext1 Iext2 tau0 r 0 dt sqrtDt gA1 gA2
      = Vep.step state coupling x0 Iext1 Iext2 tau0 r 0 dt sqrtDt gB1 gB2)
    ∧ (Vep.step state coupling x0 Iext1 Iext2 tau0 r noiseCfg dt sqrtDt gA1 gA2 i 0
      = state i 0 + Vep.epileptor_dfun state coupling x0 Iext1 Iext2 tau0 r i 0 * dt
          + noiseCfg * sqrtDt * gA1 i)
    ∧ (Vep.step state coupling x0 Iext1 Iext2 tau0 r noiseCfg dt sqrtDt gA1 gA2 i 3
      = state i 3 + Vep.epileptor_dfun state coupling x0 Iext1 Iext2 tau0 r i 3 * dt
          + noiseCfg * sqrtDt * gA2 i)
    ∧ ((VepCore.integrate_step state coupling x0 dt sqrtDt gauss).2 i 0
      = state i 0 + VepCore.dfun state coupling x0 VepCore.I_EXT_1 VepCore.I_EXT_2
          VepCore.R_TIMESCALE VepCore.TAU_0 i 0 * dt + 0.0002 * gauss i 0 * sqrtDt)
    ∧ ((VepCore.integrate_step state coupling x0 dt sqrtDt gauss).2 i 3
      = state i 3 + VepCore.dfun state coupling x0 VepCore.I_EXT_1 VepCore.I_EXT_2
          VepCore.R_TIMESCALE VepCore.TAU_0 i 3 * dt + 0.0002 * gauss i 1 * sqrtDt) := by
  refine ⟨?_, ?_, ?_, ?_, ?_⟩
  · funext j c
    by_cases h0 : c = 0
    · simp [Vep.step, h0]
    · by_cases h3 : c = 3
      · simp [Vep.step, h0, h3]
      · simp [Vep.step, h0, h3]
  · simp [Vep.step]
  · simp [Vep.step]
  · simp [VepCore.integrate_step]
  · simp [VepCore.integrate_step]

/-- C10: `VepCore.integrate_step` updates the caller's `state` buffer in
place (`state += derivs * dt`, then noise on columns 0 and 3) and returns
that same buffer, so after the call the `state` argument is element-wise the
returned next state; in particular the buffer now holds post-step values
(shown here on the untouched-by-noise column 1), not the pre-step state. -/
theorem integrate_step_in_place (state : ℕ → ℕ → ℚ) (coupling param_x0 : ℕ → ℚ)
    (dt sqrtDt : ℚ) (gauss : ℕ → ℕ → ℚ) :
    ((VepCore.integrate_step state coupling param_x0 dt sqrtDt gauss).1
      = (VepCore.integrate_step state coupling param_x0 dt sqrtDt gauss).2)
    ∧ ∀ i, (VepCore.integrate_step state coupling param_x0 dt sqrtDt gauss).1 i 1
      = state i 1 + VepCore.dfun state coupling param_x0 VepCore.I_EXT_1
          VepCore.I_EXT_2 VepCore.R_TIMESCALE VepCore.TAU_0 i 1 * dt :=
  ⟨rfl, fun i => by simp [VepCore.integrate_step]⟩

namespace Vep

/-- Embeds `Simulator.save_checkpoint` of `src/vep/simulator.py` (lines
122–126): `np.savez_compressed(path, time=time, data=data,
onset_times=onset_times, x0=self.model.x0, labels=self.anatomy.labels)`.
The `.npz` container is modelled as its list of named arrays; `α` is the
array payload (each array is stored verbatim — in particular `data` is
already the float32 matrix the run produced, so it is stored exactly). -/
def save_checkpoint {α : Type} (time data onset_times x0 labels : α) :
    List (String × α) :=
  [("time", time), ("data", data), ("onset_times", onset_times),
    ("x0", x0), ("labels", labels)]

/-- `npz[key]` access on the container returned by `np.load`. -/
def npz_get {α : Type} (npz : List (String × α)) (key : String) : Option α :=
  (npz.find? fun e => e.1 == key).map fun e => e.2

/-- Embeds `Simulator.load_checkpoint` of `src/vep/simulator.py` (lines
128–132): returns `npz['time'], npz['data'], npz['onset_times']`. -/
def load_checkpoint {α : Type} (npz : List (String × α)) :
    Option α × Option α × Option α :=
  (npz_get npz "time", npz_get npz "data", npz_get npz "onset_times")

end Vep

/-- C9: checkpoint round-trip: for every stored bundle, loading after saving
returns exactly the saved `time`, `data` (activity, already float32 and
stored verbatim, hence equal within — indeed at — the stored precision) and
`onset_times` arrays: the keys written by `save_checkpoint` are the keys
`load_checkpoint` reads. -/
theorem checkpoint_roundtrip {α : Type} (time data onset_times x0 labels : α) :
    Vep.load_checkpoint (Vep.save_checkpoint time data onset_times x0 labels)
      = (some time, some data, some onset_times) := by
  simp [Vep.load_checkpoint, Vep.save_checkpoint, Vep.npz_get, List.find?]

namespace Vep

/-- `.astype(np.int32)` on a float value: truncation toward zero (the int32
wrap at `2^31` is not modelled; every value in the theorems below is tiny). -/
def trunc_to_int (q : ℚ) : ℤ := if 0 ≤ q then ⌊q⌋ else -⌊-q⌋

/-- Embeds the delay computation of `Simulator.__init__`
(`src/vep/simulator.py` line 51):
`self.delays = (anatomy.distances / (v * dt)).astype(np.int32)`. -/
def init_delays (distances : ℕ → ℕ → ℚ) (velocity dt : ℚ) : ℕ → ℕ → ℤ :=
  fun i j => trunc_to_int (distances i j / (velocity * dt))

/-- `np.max` over the `n × n` delay matrix (`src/vep/simulator.py` line 52);
for `n ≥ 1` this is the matrix maximum (`np.max` on an empty array raises,
which is not modelled). -/
def max_delay (n : ℕ) (delays : ℕ → ℕ → ℤ) : ℤ :=
  (List.range n).foldl
    (fun m i => (List.range n).foldl (fun m j => max m (delays i j)) m)
    (delays 0 0)

/-- `self.buffer_size = self.max_delay + 10` (`src/vep/simulator.py` line 53). -/
def buffer_size (n : ℕ) (delays : ℕ → ℕ → ℤ) : ℤ := max_delay n delays + 10

end Vep

/-- A two-region tract-length matrix: distance 3 between distinct regions. -/
def twoRegionLengths : ℕ → ℕ → ℚ := fun i j => if i = j then 0 else 3

/-- C6 (code is the witness of the bug): `Simulator.__init__` performs no
configuration validation — evaluated at the invalid configuration
`dt = -1/20 < 0` with `velocity = 3` and `twoRegionLengths`, construction
completes normally, deriving negative delay steps (`-20`) and a 10-slot ring
buffer, instead of raising a configuration error before integration.
(`ForwardSimulator.__init__` runs the same three statements with module
constants and likewise validates nothing.) -/
theorem init_accepts_invalid_config :
    Vep.init_delays twoRegionLengths 3 (-1 / 20) 0 1 = -20
    ∧ Vep.buffer_size 2 (Vep.init_delays twoRegionLengths 3 (-1 / 20)) = 10 := by
  constructor
  · norm_num [Vep.init_delays, Vep.trunc_to_int, twoRegionLengths]
  · norm_num [Vep.buffer_size, Vep.max_delay, Vep.init_delays, Vep.trunc_to_int,
      twoRegionLengths, List.range_succ]
